import Mathlib

/-!
Shallow embedding of Clementine's global-search result-correlation core
(`src/globalsearch/globalsearchwidget.cpp`): the session bookkeeping, the
double-buffered result store with debounced cutover, and the same-session
result-merging ("combine") algorithm, together with proofs about them.

Qt-specific machinery that the spec declares out of scope (painting, popup
geometry, tooltip presentation, provider-button UI) is not modelled; the
popup is represented only by its visibility. External collaborators that
are not part of this repository's sources (`GlobalSearch` engine id
allocation, `GlobalSearchSortModel`) are modelled from the spec and marked
as such on their definitions.
-/

/-- QString modelled as its sequence of characters (`List Char`), so that all
string operations reduce computationally. -/
abbrev QString := List Char

/-- Mirrors `QString::toLower`. -/
def qToLower (s : QString) : QString :=
  s.map Char.toLower

/-- Mirrors `QString::trimmed`: whitespace stripped from both ends. -/
def qTrim (s : QString) : QString :=
  ((s.dropWhile Char.isWhitespace).reverse.dropWhile Char.isWhitespace).reverse

/-- Mirrors the result-type enum `globalsearch::Type`
(`Type_Track` / `Type_Album` / `Type_Stream`). -/
inductive GsType where
  | Track
  | Album
  | Stream
  deriving DecidableEq

namespace SearchProvider

/-- Mirrors `SearchProvider::Result` as consumed by `GlobalSearchWidget`:
the owning provider's id (`provider_->id()`), the match-quality tier
(`match_quality_`, an enum modelled as `Nat`), the result type (`type_`),
and the metadata fields read by `CanCombineResults` (title / album /
artist, and the stream URL in string form, `url().toString()`). -/
structure Result where
  provider_ : QString
  match_quality_ : Nat
  type_ : GsType
  title : QString
  album : QString
  artist : QString
  urlToString : QString
  deriving DecidableEq

instance : Inhabited Result :=
  ⟨⟨[], 0, GsType.Track, [], [], [], []⟩⟩

end SearchProvider

namespace GlobalSearchWidget

/-- Mirrors the enum `GlobalSearchWidget::CombineAction`. -/
inductive CombineAction where
  | CannotCombine
  | LeftPreferred
  | RightPreferred
  deriving DecidableEq

/-- Mirrors the `StringsDiffer(field)` macro inside `CanCombineResults`:
`QString::compare(r1.field, r2.field, Qt::CaseInsensitive) != 0`,
modelled as inequality of the lowercased strings. -/
def stringsDiffer (a b : QString) : Bool :=
  qToLower a != qToLower b

/-- Mirrors `QList::indexOf` as used on `provider_order_`: the index of the
first occurrence, or `-1` when the element is absent. -/
def qIndexOf (l : List QString) (x : QString) : Int :=
  match l.findIdx? (fun y => y == x) with
  | some i => (i : Int)
  | none => -1

/-- Mirrors `GlobalSearchWidget::CanCombineResults` (lines 605-640): equal
match quality and type, then the kind-specific case-insensitive field
comparisons (the `Track` case falls through into the album/artist checks),
then the provider tie-break `p2 > p1 ? RightPreferred : LeftPreferred`. -/
def canCombineResults (provider_order : List QString)
    (r1 r2 : SearchProvider.Result) : CombineAction :=
  if r1.match_quality_ ≠ r2.match_quality_ ∨ r1.type_ ≠ r2.type_ then
    CombineAction.CannotCombine
  else if (match r1.type_ with
    | GsType.Track =>
        stringsDiffer r1.title r2.title || stringsDiffer r1.album r2.album ||
          stringsDiffer r1.artist r2.artist
    | GsType.Album =>
        stringsDiffer r1.album r2.album || stringsDiffer r1.artist r2.artist
    | GsType.Stream =>
        stringsDiffer r1.urlToString r2.urlToString) then
    CombineAction.CannotCombine
  else if qIndexOf provider_order r2.provider_ > qIndexOf provider_order r1.provider_ then
    CombineAction.RightPreferred
  else
    CombineAction.LeftPreferred

/-- Stated from the spec's words for the equivalence judgment (C2): identical
match-quality level, identical result kind, and case-insensitive equality of
the kind-specific fields (track: title, album, artist; album: album, artist;
stream: URL string). -/
def equivalentPerSpec (r1 r2 : SearchProvider.Result) : Prop :=
  r1.match_quality_ = r2.match_quality_ ∧ r1.type_ = r2.type_ ∧
    (match r1.type_ with
     | GsType.Track =>
         qToLower r1.title = qToLower r2.title ∧
           qToLower r1.album = qToLower r2.album ∧
             qToLower r1.artist = qToLower r2.artist
     | GsType.Album =>
         qToLower r1.album = qToLower r2.album ∧
           qToLower r1.artist = qToLower r2.artist
     | GsType.Stream =>
         qToLower r1.urlToString = qToLower r2.urlToString)

/-- Mirrors the intent-carrying actions (`add_`, `add_and_play_`,
`add_and_queue_`, `replace_`, `replace_and_play_`); a track request stores the
triggering action, `NULL` (plain double-click) being `Option.none`. -/
inductive Intent where
  | add
  | addAndPlay
  | addAndQueue
  | replace
  | replaceAndPlay
  deriving DecidableEq

/-- Mirrors one `QStandardItem` row of a result model, holding the data roles
the widget uses: `Role_PrimaryResult`, `Role_AllResults`, `Role_OrderArrived`,
the decoration pixmap (`Qt::DecorationRole`, pixmaps modelled as `Nat`) and
the `Role_LazyLoadingArt` flag. -/
structure ResultRecord where
  primaryResult : SearchProvider.Result
  allResults : List SearchProvider.Result
  orderArrived : Nat
  decoration : Option Nat
  lazyLoadingArt : Bool
  deriving DecidableEq

instance : Inhabited ResultRecord :=
  ⟨⟨default, [], 0, none, false⟩⟩

/-- Configuration read by `ReloadSettings` (`combine_identical_results`,
`provider_order`), together with the external engine's synchronous cache probe
`GlobalSearch::FindCachedPixmap`, modelled as a pure lookup. -/
structure Config where
  combine_identical_results_ : Bool
  provider_order_ : List QString
  findCachedPixmap : SearchProvider.Result → Option Nat

/-- The widget state touched by the modelled operations: the current search id
(`last_id_`), the batch arrival counter (`order_arrived_counter_`), the two
result models together with the staging-role flag (`current_model_` points at
the back-model object after `TextEdited`; `qSwap` in `SwapModels` swaps the
member pointers, so the object `current_model_` refers to is afterwards held
by the other member — captured by flipping `currentIsBack`), the two
correlation tables (`art_requests_`, `track_requests_`), popup and tooltip
visibility, and — modelled from the spec, because the `GlobalSearch` engine is
not among these sources — the engine's monotonically increasing id allocator
plus logs of the requests the widget issues to the engine. -/
structure WidgetState where
  last_id_ : Nat
  order_arrived_counter_ : Nat
  frontModel : List ResultRecord
  backModel : List ResultRecord
  currentIsBack : Bool
  art_requests_ : List (Nat × Nat)
  track_requests_ : List (Nat × Option Intent)
  popupVisible : Bool
  tooltipVisible : Bool
  engineNextId : Nat
  cancelSearchCalls : List Nat
  searchAsyncCalls : List (Nat × QString)
  loadTracksAsyncCalls : List (Nat × SearchProvider.Result)
  deriving DecidableEq

/-- Mirrors the member initialisation in the `GlobalSearchWidget` constructor:
`last_id_(0)`, `order_arrived_counter_(0)`, empty models, `current_model_ =
front_model_`, empty correlation tables, popup hidden. -/
def initState : WidgetState :=
  { last_id_ := 0
    order_arrived_counter_ := 0
    frontModel := []
    backModel := []
    currentIsBack := false
    art_requests_ := []
    track_requests_ := []
    popupVisible := false
    tooltipVisible := false
    engineNextId := 0
    cancelSearchCalls := []
    searchAsyncCalls := []
    loadTracksAsyncCalls := [] }

/-- The model object `current_model_` currently refers to. -/
def currentModel (s : WidgetState) : List ResultRecord :=
  if s.currentIsBack then s.backModel else s.frontModel

/-- Writes through the `current_model_` pointer. -/
def setCurrentModel (s : WidgetState) (l : List ResultRecord) : WidgetState :=
  if s.currentIsBack then { s with backModel := l } else { s with frontModel := l }

/-- Modelled from the spec: `GlobalSearchSortModel` is not under `src/`; the
spec describes the proxy as an externally supplied relevance sort, "match-
quality ordering; ties broken by arrivalOrder". Comparator: greater match
quality first, then smaller arrival order first. -/
def recordLE (a b : ResultRecord) : Bool :=
  if a.primaryResult.match_quality_ = b.primaryResult.match_quality_ then
    decide (a.orderArrived ≤ b.orderArrived)
  else
    decide (b.primaryResult.match_quality_ < a.primaryResult.match_quality_)

/-- Stable insertion into a sorted list: the new element goes after every
element it does not strictly precede, so equal keys keep insertion order. -/
def insertSorted (le : α → α → Bool) (x : α) : List α → List α
  | [] => [x]
  | y :: ys => if le y x then y :: insertSorted le x ys else x :: y :: ys

/-- Stable sort by left-to-right insertion. -/
def stableSort (le : α → α → Bool) (l : List α) : List α :=
  l.foldl (fun acc x => insertSorted le x acc) []

/-- Modelled from the spec: the sorting proxy's view of a model, as the list
of source rows in sorted order (a stable dynamic sort, as
`QSortFilterProxyModel` with `dynamicSortFilter` provides). -/
def proxyOrder (l : List ResultRecord) : List Nat :=
  stableSort (fun i j => recordLE (l.getD i default) (l.getD j default))
    (List.range l.length)

/-- Reads `Role_PrimaryResult` through the proxy at a proxy row. -/
def primaryAtProxy (l : List ResultRecord) (view : List Nat) (row : Nat) :
    SearchProvider.Result :=
  (l.getD (view.getD row 0) default).primaryResult

/-- Reads `Role_AllResults` through the proxy at a proxy row; an out-of-range
index yields an invalid QVariant, i.e. the empty list. -/
def allResultsAtProxy (l : List ResultRecord) (view : List Nat) (row : Nat) :
    List SearchProvider.Result :=
  match view.get? row with
  | none => []
  | some si =>
    match l.get? si with
    | none => []
    | some r => r.allResults

/-- Index-targeted row update (mirrors `setData` on the item of one row). -/
def modifyIdx (l : List α) (i : Nat) (f : α → α) : List α :=
  match l, i with
  | [], _ => []
  | x :: xs, 0 => f x :: xs
  | x :: xs, n + 1 => x :: modifyIdx xs n f

/-- Mirrors `GlobalSearchWidget::CombineResults` (lines 642-655), with the
proxy indexes already mapped to the source rows `si` (superior) and `ii`
(inferior) of the current model: append the inferior row's `Role_AllResults`
list onto the superior's, then remove the inferior row from the model. -/
def combineResults (l : List ResultRecord) (si ii : Nat) : List ResultRecord :=
  (modifyIdx l si fun r =>
    { r with allResults := r.allResults ++ (l.getD ii default).allResults }).eraseIdx ii

/-- Mirrors the candidate list built in `AddResults` (lines 258-263): the proxy
row after the new record, then every earlier proxy row from nearest to
farthest (`my_proxy_index.row()-1` down to `0`). -/
def candidateRows (myRow : Nat) : List Nat :=
  (myRow + 1) :: (List.range myRow).reverse

/-- Mirrors the candidate scan in `AddResults` (lines 265-286): invalid
indexes are skipped, `CannotCombine` candidates are skipped, and the first
successful candidate triggers the single combine after which the scan stops
("we've just invalidated the indexes so we have to stop"). `myRow` is the new
record's proxy row; `view` maps proxy rows to source rows. -/
def combineLoop (provider_order : List QString) (l : List ResultRecord)
    (view : List Nat) (myRow : Nat) : List Nat → List ResultRecord
  | [] => l
  | c :: rest =>
    if c < view.length then
      match canCombineResults provider_order (primaryAtProxy l view myRow)
          (primaryAtProxy l view c) with
      | CombineAction.CannotCombine => combineLoop provider_order l view myRow rest
      | CombineAction.LeftPreferred =>
          combineResults l (view.getD myRow 0) (view.getD c 0)
      | CombineAction.RightPreferred =>
          combineResults l (view.getD c 0) (view.getD myRow 0)
    else
      combineLoop provider_order l view myRow rest

/-- Mirrors the per-result body of the `foreach` loop in `AddResults`
(lines 239-287): build the item (primary result, singleton all-results list,
current arrival counter, cached pixmap when the engine has one), append it to
the current model and, when combining is enabled, run the candidate scan
starting from the new item's proxy row. -/
def insertOneResult (cfg : Config) (s : WidgetState)
    (result : SearchProvider.Result) : WidgetState :=
  let item : ResultRecord :=
    { primaryResult := result
      allResults := [result]
      orderArrived := s.order_arrived_counter_
      decoration := cfg.findCachedPixmap result
      lazyLoadingArt := false }
  let l := currentModel s ++ [item]
  if cfg.combine_identical_results_ then
    let view := proxyOrder l
    let myRow := view.findIdx (fun i => i == l.length - 1)
    setCurrentModel s (combineLoop cfg.provider_order_ l view myRow (candidateRows myRow))
  else
    setCurrentModel s l

/-- Mirrors `GlobalSearchWidget::HidePopup` (lines 657-661). -/
def hidePopup (s : WidgetState) : WidgetState :=
  { s with tooltipVisible := false, popupVisible := false }

/-- Mirrors `GlobalSearchWidget::RepositionPopup` (lines 295-317), restricted
to its observable effect on visibility (popup geometry is out of scope): hide
the popup when the front model is empty, otherwise place it and show it. -/
def repositionPopup (s : WidgetState) : WidgetState :=
  if s.frontModel.length = 0 then hidePopup s
  else { s with popupVisible := true }

/-- Mirrors `GlobalSearchWidget::TextEdited` (lines 203-221). A query whose
trimmed text is shorter than 3 characters only repositions the popup.
Otherwise the back model is cleared and becomes the staging target
(`current_model_ = back_model_`), the arrival counter resets, the previous
search is cancelled and a new one starts. The engine's search-id allocation
(`GlobalSearch::SearchAsync` is not under `src/`) is modelled from the spec as
a monotonically increasing counter; the debounce timer restart is not
modelled — its eventual firing is the `swapModels` transition. -/
def textEdited (s : WidgetState) (text : QString) : WidgetState :=
  let trimmed := qTrim text
  if trimmed.length < 3 then repositionPopup s
  else
    let s1 := { s with backModel := [], currentIsBack := true, order_arrived_counter_ := 0 }
    let s2 := { s1 with cancelSearchCalls := s1.cancelSearchCalls ++ [s1.last_id_] }
    let newId := s2.engineNextId + 1
    { s2 with
      engineNextId := newId
      searchAsyncCalls := s2.searchAsyncCalls ++ [(newId, trimmed)]
      last_id_ := newId }

/-- Mirrors `GlobalSearchWidget::SwapModels` (lines 223-233): clear the art
correlation table and swap the front/back model (and proxy) member pointers.
`current_model_` keeps pointing at the same object, which is now held by the
other member, so the staging-role flag flips. The view is rebound to the
front proxy and the popup repositioned. -/
def swapModels (s : WidgetState) : WidgetState :=
  let s1 := { s with art_requests_ := [] }
  let s2 := { s1 with
    frontModel := s1.backModel
    backModel := s1.frontModel
    currentIsBack := !s1.currentIsBack }
  repositionPopup s2

/-- Mirrors `GlobalSearchWidget::AddResults` (lines 235-293): a batch whose id
differs from the current search id is dropped; otherwise each result is
inserted (and possibly combined), the arrival counter is incremented once for
the whole batch, and the popup is repositioned. -/
def addResults (cfg : Config) (s : WidgetState) (id : Nat)
    (results : List SearchProvider.Result) : WidgetState :=
  if id ≠ s.last_id_ then s
  else
    let s1 := results.foldl (insertOneResult cfg) s
    repositionPopup { s1 with order_arrived_counter_ := s1.order_arrived_counter_ + 1 }

/-- QMap lookup in a correlation table. -/
def tableLookup (t : List (Nat × α)) (id : Nat) : Option α :=
  match t.find? (fun e => e.1 == id) with
  | some e => some e.2
  | none => none

/-- QMap::take — removes the entry of the given id. -/
def tableRemove (t : List (Nat × α)) (id : Nat) : List (Nat × α) :=
  t.filter (fun e => e.1 != id)

/-- Mirrors `GlobalSearchWidget::ArtLoaded` (lines 513-519): an operation id
absent from `art_requests_` is ignored; otherwise the entry is taken from the
table and the pixmap becomes the decoration of the referenced front-model
row. -/
def artLoaded (s : WidgetState) (id : Nat) (pixmap : Nat) : WidgetState :=
  match tableLookup s.art_requests_ id with
  | none => s
  | some row =>
    { s with
      art_requests_ := tableRemove s.art_requests_ id
      frontModel := modifyIdx s.frontModel row fun r => { r with decoration := some pixmap } }

/-- Mirrors `GlobalSearchWidget::LoadTracks` (lines 545-566). `currentRow` is
the view's current proxy row (`view_->currentIndex()`, `none` when invalid);
when invalid, row 0 of the front proxy is tried, and if that is also invalid
the call returns with no effect. `tooltipResultIndex` is
`tooltip_->ActiveResultIndex()` when the tooltip is visible, else the result
index defaults to 0. A result index outside the all-results list returns with
no effect. The engine's operation-id allocation (`GlobalSearch::LoadTracksAsync`
is not under `src/`) is modelled from the spec as the monotonic counter. -/
def loadTracks (s : WidgetState) (trigger : Option Intent)
    (currentRow : Option Nat) (tooltipResultIndex : Option Int) : WidgetState :=
  let view := proxyOrder s.frontModel
  let idx : Option Nat :=
    match currentRow with
    | some r => some r
    | none => if 0 < view.length then some 0 else none
  match idx with
  | none => s
  | some row =>
    let result_index : Int :=
      match tooltipResultIndex with
      | some i => i
      | none => 0
    let results := allResultsAtProxy s.frontModel view row
    if result_index < 0 ∨ (results.length : Int) ≤ result_index then s
    else
      let newId := s.engineNextId + 1
      { s with
        engineNextId := newId
        loadTracksAsyncCalls :=
          s.loadTracksAsyncCalls ++ [(newId, results.getD result_index.toNat default)]
        track_requests_ := s.track_requests_ ++ [(newId, trigger)] }

/-- The kind-specific-failure predicate for one candidate of the combine scan:
the candidate proxy row is invalid, or `CanCombineResults` says
`CannotCombine`. A scan step passes over exactly these candidates. -/
def candFails (provider_order : List QString) (l : List ResultRecord)
    (view : List Nat) (myRow c : Nat) : Prop :=
  view.length ≤ c ∨
    canCombineResults provider_order (primaryAtProxy l view myRow)
      (primaryAtProxy l view c) = CombineAction.CannotCombine

/-- The single combine the scan performs for a successful candidate `c`
(the `switch (action)` body of `AddResults`, lines 271-282). -/
def applyCombine (provider_order : List QString) (l : List ResultRecord)
    (view : List Nat) (myRow c : Nat) : List ResultRecord :=
  match canCombineResults provider_order (primaryAtProxy l view myRow)
      (primaryAtProxy l view c) with
  | CombineAction.CannotCombine => l
  | CombineAction.LeftPreferred =>
      combineResults l (view.getD myRow 0) (view.getD c 0)
  | CombineAction.RightPreferred =>
      combineResults l (view.getD c 0) (view.getD myRow 0)

/-- Every alternative held across a buffer: the concatenation of all rows'
`Role_AllResults` lists. -/
def allAlts (l : List ResultRecord) : List SearchProvider.Result :=
  (l.map fun r => r.allResults).flatten

/-- Concrete provider id fixtures (spec scenario: P1 at preference index 0,
P2 at preference index 1). -/
def p1id : QString := ['P', '1']

/-- Concrete provider id at preference index 1. -/
def p2id : QString := ['P', '2']

/-- Concrete track result owned by provider P1. -/
def trackFromP1 : SearchProvider.Result :=
  { provider_ := p1id
    match_quality_ := 1
    type_ := GsType.Track
    title := ['M', 'o', 'n', 'e', 'y']
    album := ['D', 'a', 'r', 'k']
    artist := ['P', 'i', 'n', 'k']
    urlToString := [] }

/-- The equivalent track result owned by provider P2. -/
def trackFromP2 : SearchProvider.Result :=
  { trackFromP1 with provider_ := p2id }

/-- Concrete configuration: combining on, preference order [P1, P2], empty
pixmap cache. -/
def combineCfg : Config :=
  { combine_identical_results_ := true
    provider_order_ := [p1id, p2id]
    findCachedPixmap := fun _ => none }

/-- A concrete three-character query. -/
def queryABC : QString := ['a', 'b', 'c']

/-- A concrete two-character query. -/
def queryAB : QString := ['a', 'b']

/-- A concrete result row fixture. -/
def recA : ResultRecord :=
  { primaryResult := trackFromP1
    allResults := [trackFromP1]
    orderArrived := 0
    decoration := none
    lazyLoadingArt := false }

/-- A second concrete result row fixture, not equal to `recA`. -/
def recB : ResultRecord :=
  { primaryResult := trackFromP2
    allResults := [trackFromP2]
    orderArrived := 1
    decoration := none
    lazyLoadingArt := false }

/-- State fixture for the C1/C5 scenarios: a fresh widget after the
three-character query opened session 1 (staging = back model, both models
empty). -/
def sessionOneState : WidgetState :=
  textEdited initState queryABC

/-- State fixture: session 1 after the P1 result arrived in batch 0 and the
P2 result arrived in batch 1 (both with the current session id 1). -/
def mergedState : WidgetState :=
  addResults combineCfg (addResults combineCfg sessionOneState 1 [trackFromP1]) 1 [trackFromP2]

/-- State fixture for C5/C8/C9: cutover fired for session 1 before any result
arrived. -/
def cutoverState : WidgetState :=
  swapModels sessionOneState

/-- State fixture for C7: stale results from an earlier session are on screen
(front model nonempty, popup visible). -/
def staleVisibleState : WidgetState :=
  { initState with frontModel := [recA], popupVisible := true }

/-- State fixture for C8: distinguishable front and back models. -/
def distinctModelsState : WidgetState :=
  { initState with frontModel := [recA], backModel := [recB] }

/-- State fixture for C9: an art request (operation id 42, front row 0) is
outstanding. -/
def pendingArtState : WidgetState :=
  { initState with frontModel := [recA], art_requests_ := [(42, 0)] }


end GlobalSearchWidget

namespace GlobalSearchWidget

/-- Helper: the provider tie-break at the end of `CanCombineResults` always
returns a preference, never `CannotCombine`. -/
theorem tiebreak_ne_cannotCombine (c : Prop) [Decidable c] :
    (if c then CombineAction.RightPreferred else CombineAction.LeftPreferred) ≠
      CombineAction.CannotCombine := by
  split <;> simp

/-- C2: the Merge Engine judges two results equivalent (CanCombineResults
returns something other than CannotCombine) if and only if their
match-quality levels are identical, their result kinds are identical, and
the kind-specific fields are equal case-insensitively (track: title, album,
artist; album: album, artist; stream: URL string form). -/
theorem c2_equivalence_iff (provider_order : List QString)
    (r1 r2 : SearchProvider.Result) :
    canCombineResults provider_order r1 r2 ≠ CombineAction.CannotCombine ↔
      equivalentPerSpec r1 r2 := by
  obtain ⟨pr1, mq1, ty1, ti1, al1, ar1, u1⟩ := r1
  obtain ⟨pr2, mq2, ty2, ti2, al2, ar2, u2⟩ := r2
  by_cases h1 : mq1 = mq2
  · by_cases h2 : ty1 = ty2
    · subst h1
      subst h2
      cases ty1 with
      | Track =>
          by_cases ht : qToLower ti1 = qToLower ti2 <;>
            by_cases hal : qToLower al1 = qToLower al2 <;>
              by_cases har : qToLower ar1 = qToLower ar2 <;>
                simp [canCombineResults, equivalentPerSpec, stringsDiffer,
                  ht, hal, har, tiebreak_ne_cannotCombine]
      | Album =>
          by_cases hal : qToLower al1 = qToLower al2 <;>
            by_cases har : qToLower ar1 = qToLower ar2 <;>
              simp [canCombineResults, equivalentPerSpec, stringsDiffer,
                hal, har, tiebreak_ne_cannotCombine]
      | Stream =>
          by_cases hu : qToLower u1 = qToLower u2 <;>
            simp [canCombineResults, equivalentPerSpec, stringsDiffer,
              hu, tiebreak_ne_cannotCombine]
    · simp [canCombineResults, equivalentPerSpec, h2]
  · simp [canCombineResults, equivalentPerSpec, h1]



/-- RepositionPopup only touches the visibility flags: front model unchanged. -/
theorem repositionPopup_frontModel (s : WidgetState) :
    (repositionPopup s).frontModel = s.frontModel := by
  unfold repositionPopup hidePopup
  split <;> rfl

/-- RepositionPopup leaves the back model unchanged. -/
theorem repositionPopup_backModel (s : WidgetState) :
    (repositionPopup s).backModel = s.backModel := by
  unfold repositionPopup hidePopup
  split <;> rfl

/-- RepositionPopup leaves the staging-role flag unchanged. -/
theorem repositionPopup_currentIsBack (s : WidgetState) :
    (repositionPopup s).currentIsBack = s.currentIsBack := by
  unfold repositionPopup hidePopup
  split <;> rfl

/-- RepositionPopup leaves the current search id unchanged. -/
theorem repositionPopup_last_id (s : WidgetState) :
    (repositionPopup s).last_id_ = s.last_id_ := by
  unfold repositionPopup hidePopup
  split <;> rfl

/-- RepositionPopup leaves the art correlation table unchanged. -/
theorem repositionPopup_art_requests (s : WidgetState) :
    (repositionPopup s).art_requests_ = s.art_requests_ := by
  unfold repositionPopup hidePopup
  split <;> rfl

/-- RepositionPopup leaves the arrival counter unchanged. -/
theorem repositionPopup_counter (s : WidgetState) :
    (repositionPopup s).order_arrived_counter_ = s.order_arrived_counter_ := by
  unfold repositionPopup hidePopup
  split <;> rfl

/-- After the swap, the front model holds what was staged in the back model. -/
theorem swapModels_frontModel (s : WidgetState) :
    (swapModels s).frontModel = s.backModel := by
  unfold swapModels
  rw [repositionPopup_frontModel]

/-- After the swap, the back model holds the previously visible front model. -/
theorem swapModels_backModel (s : WidgetState) :
    (swapModels s).backModel = s.frontModel := by
  unfold swapModels
  rw [repositionPopup_backModel]

/-- The staging-role flag flips at the swap (the object `current_model_`
points at is afterwards held by the other member pointer). -/
theorem swapModels_currentIsBack (s : WidgetState) :
    (swapModels s).currentIsBack = !s.currentIsBack := by
  unfold swapModels
  rw [repositionPopup_currentIsBack]

/-- The swap does not change the current search id. -/
theorem swapModels_last_id (s : WidgetState) :
    (swapModels s).last_id_ = s.last_id_ := by
  unfold swapModels
  rw [repositionPopup_last_id]

/-- The swap clears the art correlation table. -/
theorem swapModels_art_requests (s : WidgetState) :
    (swapModels s).art_requests_ = [] := by
  unfold swapModels
  rw [repositionPopup_art_requests]

/-- The swap does not change the arrival counter. -/
theorem swapModels_counter (s : WidgetState) :
    (swapModels s).order_arrived_counter_ = s.order_arrived_counter_ := by
  unfold swapModels
  rw [repositionPopup_counter]

/-- C4: a batch whose session id is not the current one is discarded with no
effect at all — the returned state is the old state, so staging and active
buffers, the arrival counter and both correlation tables are unchanged; and
once a newer session has been opened by TextEdited, the id of any previously
issued session differs from the new current id, so its late batches are
always dropped. -/
theorem c4_stale_batch_dropped (cfg : Config) (s : WidgetState) (oldId : Nat)
    (text : QString) (hq : ¬ (qTrim text).length < 3)
    (hold : oldId ≤ s.engineNextId) :
    (textEdited s text).last_id_ ≠ oldId ∧
      ∀ results, addResults cfg (textEdited s text) oldId results = textEdited s text := by
  have hlast : (textEdited s text).last_id_ = s.engineNextId + 1 := by
    simp [textEdited, hq]
  have hne : oldId ≠ (textEdited s text).last_id_ := by
    rw [hlast]
    omega
  constructor
  · rw [hlast]
    omega
  · intro results
    unfold addResults
    rw [if_pos hne]

/-- Witness for C4 at a concrete input. -/
theorem c4_stale_batch_dropped_witness :
    (textEdited initState queryABC).last_id_ ≠ 0 ∧
      ∀ results,
        addResults combineCfg (textEdited initState queryABC) 0 results =
          textEdited initState queryABC :=
  c4_stale_batch_dropped combineCfg initState 0 queryABC (by decide) (by decide)

/-- C7 (amended): a query whose trimmed length is below 3 starts no session —
no cancellation or search request is issued, no buffer, counter or correlation
table changes — but the popup is only repositioned, not unconditionally
hidden: it ends hidden exactly when the active (front) model is empty, and
otherwise it is shown or kept visible (still displaying the previous
session's results). -/
theorem c7_amended_short_query (s : WidgetState) (text : QString)
    (hshort : (qTrim text).length < 3) :
    (textEdited s text).last_id_ = s.last_id_ ∧
      (textEdited s text).searchAsyncCalls = s.searchAsyncCalls ∧
      (textEdited s text).cancelSearchCalls = s.cancelSearchCalls ∧
      (textEdited s text).frontModel = s.frontModel ∧
      (textEdited s text).backModel = s.backModel ∧
      (textEdited s text).currentIsBack = s.currentIsBack ∧
      (textEdited s text).order_arrived_counter_ = s.order_arrived_counter_ ∧
      (textEdited s text).art_requests_ = s.art_requests_ ∧
      (textEdited s text).track_requests_ = s.track_requests_ ∧
      (textEdited s text).popupVisible =
        (if s.frontModel.length = 0 then false else true) := by
  have ht : textEdited s text = repositionPopup s := by
    unfold textEdited
    rw [if_pos hshort]
  rw [ht]
  unfold repositionPopup hidePopup
  by_cases he : s.frontModel.length = 0 <;> simp [he]

/-- Witness for C7 (amended) at a concrete input. -/
theorem c7_amended_short_query_witness :
    (textEdited staleVisibleState queryAB).last_id_ = staleVisibleState.last_id_ ∧
      (textEdited staleVisibleState queryAB).searchAsyncCalls = staleVisibleState.searchAsyncCalls ∧
      (textEdited staleVisibleState queryAB).cancelSearchCalls = staleVisibleState.cancelSearchCalls ∧
      (textEdited staleVisibleState queryAB).frontModel = staleVisibleState.frontModel ∧
      (textEdited staleVisibleState queryAB).backModel = staleVisibleState.backModel ∧
      (textEdited staleVisibleState queryAB).currentIsBack = staleVisibleState.currentIsBack ∧
      (textEdited staleVisibleState queryAB).order_arrived_counter_ = staleVisibleState.order_arrived_counter_ ∧
      (textEdited staleVisibleState queryAB).art_requests_ = staleVisibleState.art_requests_ ∧
      (textEdited staleVisibleState queryAB).track_requests_ = staleVisibleState.track_requests_ ∧
      (textEdited staleVisibleState queryAB).popupVisible =
        (if staleVisibleState.frontModel.length = 0 then false else true) :=
  c7_amended_short_query staleVisibleState queryAB (by decide)

/-- C7 is refuted on the code at a concrete input: with stale results still in
the active model and the popup visible, the two-character query leaves the
popup visible (RepositionPopup hides only when the front model is empty),
while the claim demands that any visible popup be hidden. The no-session part
of the claim does hold: the state is entirely unchanged. -/
theorem c7_counterexample :
    (textEdited staleVisibleState queryAB).popupVisible = true ∧
      textEdited staleVisibleState queryAB = staleVisibleState := by
  decide

/-- C8 (amended): SwapModels is not idempotent but an involution on the model
contents: each fire swaps the front/back roles, so firing it twice restores
both models to their pre-first-fire contents instead of preserving the state
after the first fire. (In execution the single-shot debounce timer fires once
per arming, so a double fire without a re-arm does not occur.) -/
theorem c8_amended_double_swap (s : WidgetState) :
    (swapModels (swapModels s)).frontModel = s.frontModel ∧
      (swapModels (swapModels s)).backModel = s.backModel ∧
      (swapModels s).frontModel = s.backModel ∧
      (swapModels s).backModel = s.frontModel := by
  refine ⟨?_, ?_, swapModels_frontModel s, swapModels_backModel s⟩
  · rw [swapModels_frontModel, swapModels_backModel]
  · rw [swapModels_backModel, swapModels_frontModel]

/-- C8 is refuted on the code at a concrete input: with different front and
back contents, the active buffer observed after the second fire differs from
the one observed after the first fire (the second fire swaps back). -/
theorem c8_counterexample :
    (swapModels (swapModels distinctModelsState)).frontModel ≠
      (swapModels distinctModelsState).frontModel := by
  decide

/-- C9: at cutover the whole art correlation table is discarded, and an
ArtLoaded delivery whose operation id is no longer in the table is a complete
no-op — in particular any art response arriving after the cutover that
followed its request changes nothing (no decoration is set, no state
changes). -/
theorem c9_art_discard_noop (s : WidgetState) (id pixmap : Nat) :
    (swapModels s).art_requests_ = [] ∧
      artLoaded (swapModels s) id pixmap = swapModels s ∧
      ∀ s2 : WidgetState, tableLookup s2.art_requests_ id = none →
        artLoaded s2 id pixmap = s2 := by
  have hgen : ∀ s2 : WidgetState, tableLookup s2.art_requests_ id = none →
      artLoaded s2 id pixmap = s2 := by
    intro s2 h2
    unfold artLoaded
    rw [h2]
  refine ⟨swapModels_art_requests s, hgen _ ?_, hgen⟩
  rw [swapModels_art_requests]
  rfl

/-- Witness for C9 at a concrete input: operation 42 was pending before the
cutover; its late delivery is a no-op. -/
theorem c9_art_discard_noop_witness :
    (swapModels pendingArtState).art_requests_ = [] ∧
      artLoaded (swapModels pendingArtState) 42 7 = swapModels pendingArtState ∧
      ∀ s2 : WidgetState, tableLookup s2.art_requests_ 42 = none →
        artLoaded s2 42 7 = s2 :=
  c9_art_discard_noop pendingArtState 42 7

/-- Inserting a result into an empty current model just appends the one item:
the combine scan finds no valid candidate. -/
theorem insertOneResult_on_empty (cfg : Config) (s : WidgetState)
    (r : SearchProvider.Result) (h : currentModel s = []) :
    insertOneResult cfg s r =
      setCurrentModel s
        [{ primaryResult := r
           allResults := [r]
           orderArrived := s.order_arrived_counter_
           decoration := cfg.findCachedPixmap r
           lazyLoadingArt := false }] := by
  unfold insertOneResult
  rw [h]
  split <;> rfl

/-- C5 (amended): after cutover the staging role coincides with the newly
active front model — `current_model_` is the object the swap just promoted —
so a later batch of the same (still-current) session is ingested straight
into the active buffer and changes its contents (here: from empty to one
record). The active buffer is not frozen against same-session arrivals. -/
theorem c5_amended_post_cutover_ingest (cfg : Config) (s : WidgetState)
    (r : SearchProvider.Result) (hstaging : s.currentIsBack = true)
    (hempty : s.backModel = []) :
    currentModel (swapModels s) = (swapModels s).frontModel ∧
      (swapModels s).frontModel = [] ∧
      (addResults cfg (swapModels s) (swapModels s).last_id_ [r]).frontModel =
        [{ primaryResult := r
           allResults := [r]
           orderArrived := (swapModels s).order_arrived_counter_
           decoration := cfg.findCachedPixmap r
           lazyLoadingArt := false }] := by
  have hflag : (swapModels s).currentIsBack = false := by
    rw [swapModels_currentIsBack, hstaging]
    rfl
  have hcur : currentModel (swapModels s) = (swapModels s).frontModel := by
    unfold currentModel
    rw [hflag]
    rfl
  have hfront : (swapModels s).frontModel = [] := by
    rw [swapModels_frontModel, hempty]
  refine ⟨hcur, hfront, ?_⟩
  unfold addResults
  rw [if_neg (fun hcontra => hcontra rfl)]
  simp only [List.foldl]
  rw [insertOneResult_on_empty cfg (swapModels s) r (hcur.trans hfront)]
  rw [repositionPopup_frontModel]
  unfold setCurrentModel
  rw [hflag]
  rfl

/-- Witness for C5 (amended) at a concrete input. -/
theorem c5_amended_post_cutover_ingest_witness :
    currentModel (swapModels sessionOneState) = (swapModels sessionOneState).frontModel ∧
      (swapModels sessionOneState).frontModel = [] ∧
      (addResults combineCfg (swapModels sessionOneState)
            (swapModels sessionOneState).last_id_ [trackFromP1]).frontModel =
        [{ primaryResult := trackFromP1
           allResults := [trackFromP1]
           orderArrived := (swapModels sessionOneState).order_arrived_counter_
           decoration := combineCfg.findCachedPixmap trackFromP1
           lazyLoadingArt := false }] :=
  c5_amended_post_cutover_ingest combineCfg sessionOneState trackFromP1 (by decide) (by decide)

/-- C5 is refuted on the code at a concrete input: after the cutover of
session 1, ingesting a further batch of session 1 changes the active (front)
buffer — the claim demands it be unchanged. -/
theorem c5_counterexample :
    (addResults combineCfg cutoverState cutoverState.last_id_ [trackFromP1]).frontModel ≠
      cutoverState.frontModel := by
  decide

/-- C1 (amended): for results judged equivalent, the tie-break compares
QList::indexOf positions in the preference list and makes the side whose
provider has the GREATER index the superior record (absent providers have
index -1, so a listed provider beats an unlisted one, but among listed
providers the one later in the list wins); when the indices are equal — in
particular when neither provider appears — the left operand is superior. -/
theorem c1_amended_tiebreak (provider_order : List QString)
    (r1 r2 : SearchProvider.Result)
    (h : canCombineResults provider_order r1 r2 ≠ CombineAction.CannotCombine) :
    (qIndexOf provider_order r1.provider_ < qIndexOf provider_order r2.provider_ →
        canCombineResults provider_order r1 r2 = CombineAction.RightPreferred) ∧
      (qIndexOf provider_order r2.provider_ ≤ qIndexOf provider_order r1.provider_ →
        canCombineResults provider_order r1 r2 = CombineAction.LeftPreferred) := by
  unfold canCombineResults at h ⊢
  by_cases hA : r1.match_quality_ ≠ r2.match_quality_ ∨ r1.type_ ≠ r2.type_
  · rw [if_pos hA] at h
    exact absurd rfl h
  · rw [if_neg hA] at h ⊢
    by_cases hB : (match r1.type_ with
      | GsType.Track =>
          stringsDiffer r1.title r2.title || stringsDiffer r1.album r2.album ||
            stringsDiffer r1.artist r2.artist
      | GsType.Album =>
          stringsDiffer r1.album r2.album || stringsDiffer r1.artist r2.artist
      | GsType.Stream =>
          stringsDiffer r1.urlToString r2.urlToString) = true
    · rw [if_pos hB] at h
      exact absurd rfl h
    · rw [if_neg hB]
      constructor
      · intro hlt
        exact if_pos hlt
      · intro hle
        exact if_neg (not_lt.mpr hle)

/-- Witness for C1 (amended) at the spec's own concrete instance (P1 at
preference index 0, P2 at preference index 1, equivalent track results). -/
theorem c1_amended_tiebreak_witness :
    (qIndexOf [p1id, p2id] trackFromP1.provider_ < qIndexOf [p1id, p2id] trackFromP2.provider_ →
        canCombineResults [p1id, p2id] trackFromP1 trackFromP2 = CombineAction.RightPreferred) ∧
      (qIndexOf [p1id, p2id] trackFromP2.provider_ ≤ qIndexOf [p1id, p2id] trackFromP1.provider_ →
        canCombineResults [p1id, p2id] trackFromP1 trackFromP2 = CombineAction.LeftPreferred) :=
  c1_amended_tiebreak [p1id, p2id] trackFromP1 trackFromP2 (by decide)

/-- C1 is refuted on the code at the claim's own concrete instance: with
providers P1 at preference index 0 and P2 at preference index 1 and
equivalent track results r1 (from P1, arriving first) and r2 (from P2,
arriving second), `CanCombineResults` prefers the GREATER index, so the
merged record's primary alternative is r2, not r1 as the claim states (the
P2 record is superior; the P1 record is the appended alternative). -/
theorem c1_counterexample :
    canCombineResults [p1id, p2id] trackFromP1 trackFromP2 = CombineAction.RightPreferred ∧
      (currentModel mergedState).map (fun rec => rec.primaryResult) = [trackFromP2] ∧
      (currentModel mergedState).map (fun rec => rec.allResults) = [[trackFromP2, trackFromP1]] ∧
      trackFromP2 ≠ trackFromP1 := by
  decide


/-- modifyIdx preserves the list length. -/
theorem modifyIdx_length (l : List α) (i : Nat) (f : α → α) :
    (modifyIdx l i f).length = l.length := by
  induction l generalizing i with
  | nil => rfl
  | cons x xs ih =>
    cases i with
    | zero => rfl
    | succ n => simp [modifyIdx, ih]

/-- modifyIdx leaves the rows at other indexes unchanged. -/
theorem modifyIdx_getElem_ne (l : List α) (i j : Nat) (f : α → α) (h : j ≠ i) :
    (modifyIdx l i f)[j]? = l[j]? := by
  induction l generalizing i j with
  | nil => rfl
  | cons x xs ih =>
    cases i with
    | zero =>
      cases j with
      | zero => exact absurd rfl h
      | succ m => simp [modifyIdx]
    | succ n =>
      cases j with
      | zero => simp [modifyIdx]
      | succ m =>
        have hmn : m ≠ n := fun hh => h (by rw [hh])
        simp only [modifyIdx, List.getElem?_cons_succ]
        exact ih n m hmn

/-- modifyIdx applies the function at the targeted index. -/
theorem modifyIdx_getElem_eq (l : List α) (i : Nat) (f : α → α) :
    (modifyIdx l i f)[i]? = (l[i]?).map f := by
  induction l generalizing i with
  | nil => rfl
  | cons x xs ih =>
    cases i with
    | zero => simp [modifyIdx]
    | succ n =>
      simp only [modifyIdx, List.getElem?_cons_succ]
      exact ih n

/-- allAlts distributes over cons. -/
theorem allAlts_cons (r : ResultRecord) (xs : List ResultRecord) :
    allAlts (r :: xs) = r.allResults ++ allAlts xs := rfl

/-- CombineResults removes at most one row, so the buffer shrinks by at most
one per merge. -/
theorem combineResults_length_bounds (l : List ResultRecord) (si ii : Nat) :
    l.length ≤ (combineResults l si ii).length + 1 ∧
      (combineResults l si ii).length ≤ l.length := by
  unfold combineResults
  simp only [List.length_eraseIdx, modifyIdx_length]
  split <;> omega

/-- Appending extra alternatives onto row `i` prepends exactly those
alternatives to the buffer-wide multiset. -/
theorem allAlts_modifyIdx_append (l : List ResultRecord) (i : Nat)
    (a : List SearchProvider.Result) (r : ResultRecord) (h : l[i]? = some r) :
    List.Perm
      (allAlts (modifyIdx l i fun x => { x with allResults := x.allResults ++ a }))
      (a ++ allAlts l) := by
  induction l generalizing i with
  | nil => simp at h
  | cons x xs ih =>
    cases i with
    | zero =>
      simp only [modifyIdx, allAlts_cons]
      have h1 := List.Perm.append_right (allAlts xs)
        (@List.perm_append_comm _ x.allResults a)
      rw [List.append_assoc a] at h1
      exact h1
    | succ n =>
      simp only [List.getElem?_cons_succ] at h
      simp only [modifyIdx, allAlts_cons]
      have h1 := List.Perm.append_left x.allResults (ih n h)
      refine h1.trans ?_
      have h2 := List.Perm.append_right (allAlts xs)
        (@List.perm_append_comm _ x.allResults a)
      rw [List.append_assoc x.allResults, List.append_assoc a] at h2
      exact h2

/-- Removing row `i` splits off exactly its alternatives from the buffer-wide
multiset. -/
theorem allAlts_eraseIdx (l : List ResultRecord) (i : Nat) (r : ResultRecord)
    (h : l[i]? = some r) :
    List.Perm (allAlts l) (r.allResults ++ allAlts (l.eraseIdx i)) := by
  induction l generalizing i with
  | nil => simp at h
  | cons x xs ih =>
    cases i with
    | zero =>
      rw [List.getElem?_cons_zero, Option.some.injEq] at h
      subst h
      exact List.Perm.refl _
    | succ n =>
      simp only [List.getElem?_cons_succ] at h
      simp only [List.eraseIdx, allAlts_cons]
      have h1 := List.Perm.append_left x.allResults (ih n h)
      refine h1.trans ?_
      have h2 := List.Perm.append_right (allAlts (xs.eraseIdx n))
        (@List.perm_append_comm _ x.allResults r.allResults)
      rw [List.append_assoc x.allResults, List.append_assoc r.allResults] at h2
      exact h2

/-- C6: merging never loses an alternative. For a merge of the inferior row
`ii` into the superior row `si`: afterwards the superior record holds its old
alternatives with the inferior record's whole list appended, the inferior row
is removed (the buffer is exactly one row shorter), and the multiset of all
alternatives held across the buffer is preserved (a permutation of the old
one). -/
theorem c6_combine_preserves_alternatives (l : List ResultRecord) (si ii : Nat)
    (sup inf : ResultRecord) (hs : l[si]? = some sup) (hi : l[ii]? = some inf)
    (hne : si ≠ ii) :
    (combineResults l si ii)[if ii < si then si - 1 else si]? =
        some { sup with allResults := sup.allResults ++ inf.allResults } ∧
      (combineResults l si ii).length + 1 = l.length ∧
      List.Perm (allAlts (combineResults l si ii)) (allAlts l) := by
  have hiilen : ii < l.length := by
    by_contra hh
    rw [List.getElem?_eq_none (Nat.le_of_not_lt hh)] at hi
    exact Option.noConfusion hi
  have hgetD : l.getD ii default = inf := by
    rw [List.getD_eq_getElem?_getD, hi]
    rfl
  unfold combineResults
  simp only [hgetD]
  refine ⟨?_, ?_, ?_⟩
  · by_cases hlt : ii < si
    · rw [if_pos hlt]
      rw [List.getElem?_eraseIdx_of_ge _ _ _ (by omega : ii ≤ si - 1)]
      rw [Nat.sub_add_cancel (by omega : 1 ≤ si)]
      rw [modifyIdx_getElem_eq, hs]
      rfl
    · rw [if_neg hlt]
      have hsilt : si < ii := Nat.lt_of_le_of_ne (Nat.le_of_not_lt hlt) hne
      rw [List.getElem?_eraseIdx_of_lt _ _ _ hsilt]
      rw [modifyIdx_getElem_eq, hs]
      rfl
  · simp only [List.length_eraseIdx, modifyIdx_length]
    rw [if_pos hiilen]
    omega
  · have hm_ii :
        (modifyIdx l si fun r =>
            { r with allResults := r.allResults ++ inf.allResults })[ii]? = some inf := by
      rw [modifyIdx_getElem_ne _ _ _ _ (Ne.symm hne)]
      exact hi
    have h1 := allAlts_modifyIdx_append l si inf.allResults sup hs
    have h2 := allAlts_eraseIdx
      (modifyIdx l si fun r => { r with allResults := r.allResults ++ inf.allResults })
      ii inf hm_ii
    exact (List.perm_append_left_iff inf.allResults).mp (h2.symm.trans h1)

/-- Witness for C6 at a concrete input: the P2-primary row 0 absorbs the
P1-primary row 1. -/
theorem c6_combine_preserves_alternatives_witness :
    (combineResults [recA, recB] 0 1)[if 1 < 0 then 0 - 1 else 0]? =
        some { recA with allResults := recA.allResults ++ recB.allResults } ∧
      (combineResults [recA, recB] 0 1).length + 1 = [recA, recB].length ∧
      List.Perm (allAlts (combineResults [recA, recB] 0 1)) (allAlts [recA, recB]) :=
  c6_combine_preserves_alternatives [recA, recB] 0 1 recA recB (by decide) (by decide) (by decide)


/-- C3: with combining enabled, the candidates the scan examines for a new
record at proxy row `myRow` are exactly the row immediately after it in sort
order followed by every earlier row from nearest to farthest (the following
row is dropped when invalid, i.e. when the new record sorts last); the scan
stops at the first successful candidate — candidates after it are never
examined — and at most one merge (one row removal) is performed per
insertion. -/
theorem c3_candidate_scan (provider_order : List QString) (l : List ResultRecord)
    (view : List Nat) (myRow : Nat) (hrow : myRow < view.length) :
    ((candidateRows myRow).filter (fun c => decide (c < view.length)) =
        (if myRow + 1 < view.length then [myRow + 1] else []) ++
          (List.range myRow).reverse) ∧
      (∀ pre c post, (∀ x ∈ pre, candFails provider_order l view myRow x) →
          ¬ candFails provider_order l view myRow c →
          combineLoop provider_order l view myRow (pre ++ c :: post) =
            combineLoop provider_order l view myRow (pre ++ [c])) ∧
      ∀ cands, l.length ≤ (combineLoop provider_order l view myRow cands).length + 1 ∧
          (combineLoop provider_order l view myRow cands).length ≤ l.length := by
  refine ⟨?_, ?_, ?_⟩
  · have htail : (List.range myRow).reverse.filter (fun c => decide (c < view.length)) =
        (List.range myRow).reverse := by
      rw [List.filter_eq_self]
      intro a ha
      rw [List.mem_reverse, List.mem_range] at ha
      exact decide_eq_true (Nat.lt_trans ha hrow)
    unfold candidateRows
    rw [List.filter_cons, htail]
    by_cases h1 : myRow + 1 < view.length
    · simp [h1]
    · simp [h1]
  · intro pre c post hpre hc
    have hcv : c < view.length := by
      rcases Nat.lt_or_ge c view.length with h | h
      · exact h
      · exact absurd (Or.inl h) hc
    have hact : canCombineResults provider_order (primaryAtProxy l view myRow)
        (primaryAtProxy l view c) ≠ CombineAction.CannotCombine :=
      fun hcc => hc (Or.inr hcc)
    induction pre with
    | nil =>
      simp only [List.nil_append]
      simp only [combineLoop]
      rw [if_pos hcv, if_pos hcv]
      cases hval : canCombineResults provider_order (primaryAtProxy l view myRow)
          (primaryAtProxy l view c) with
      | CannotCombine => exact absurd hval hact
      | LeftPreferred => rfl
      | RightPreferred => rfl
    | cons x xs ih =>
      have hx := hpre x (List.mem_cons_self x xs)
      have hrest : ∀ y ∈ xs, candFails provider_order l view myRow y :=
        fun y hy => hpre y (List.mem_cons_of_mem x hy)
      simp only [List.cons_append, combineLoop]
      by_cases hxv : x < view.length
      · rw [if_pos hxv, if_pos hxv]
        rcases hx with hinv | hcc
        · exact absurd hxv (Nat.not_lt.mpr hinv)
        · simp only [hcc]
          exact ih hrest
      · rw [if_neg hxv, if_neg hxv]
        exact ih hrest
  · intro cands
    induction cands with
    | nil =>
      simp only [combineLoop]
      omega
    | cons c rest ih =>
      simp only [combineLoop]
      by_cases hv : c < view.length
      · rw [if_pos hv]
        cases hval : canCombineResults provider_order (primaryAtProxy l view myRow)
            (primaryAtProxy l view c) with
        | CannotCombine => exact ih
        | LeftPreferred => exact combineResults_length_bounds l _ _
        | RightPreferred => exact combineResults_length_bounds l _ _
      · rw [if_neg hv]
        exact ih

/-- Witness for C3 at a concrete input (a two-row view with the new record at
proxy row 0). -/
theorem c3_candidate_scan_witness :
    ((candidateRows 0).filter (fun c => decide (c < [0, 1].length)) =
        (if 0 + 1 < [0, 1].length then [0 + 1] else []) ++
          (List.range 0).reverse) ∧
      (∀ pre c post, (∀ x ∈ pre, candFails [] [recA, recB] [0, 1] 0 x) →
          ¬ candFails [] [recA, recB] [0, 1] 0 c →
          combineLoop [] [recA, recB] [0, 1] 0 (pre ++ c :: post) =
            combineLoop [] [recA, recB] [0, 1] 0 (pre ++ [c])) ∧
      ∀ cands, [recA, recB].length ≤ (combineLoop [] [recA, recB] [0, 1] 0 cands).length + 1 ∧
          (combineLoop [] [recA, recB] [0, 1] 0 cands).length ≤ [recA, recB].length :=
  c3_candidate_scan [] [recA, recB] [0, 1] 0 (by decide)

/-- C10: activating a selection is a complete no-op — no track request issued
to the engine, no correlation entry added, nothing changed — when there is no
valid row to activate (no current index and an empty front model), when the
tooltip's requested alternative index is negative or at least the length of
the row's alternatives list, and when the row's alternatives list is empty
(out-of-range rows included, since they read an empty list). -/
theorem c10_loadTracks_noop (s : WidgetState) (trigger : Option Intent) :
    (∀ tip, s.frontModel = [] → loadTracks s trigger none tip = s) ∧
      (∀ row tipIdx,
          (tipIdx < 0 ∨
            ((allResultsAtProxy s.frontModel (proxyOrder s.frontModel) row).length : Int) ≤
              tipIdx) →
          loadTracks s trigger (some row) (some tipIdx) = s) ∧
      ∀ row, allResultsAtProxy s.frontModel (proxyOrder s.frontModel) row = [] →
          loadTracks s trigger (some row) none = s := by
  refine ⟨?_, ?_, ?_⟩
  · intro tip hempty
    unfold loadTracks
    rw [hempty]
    rfl
  · intro row tipIdx hout
    unfold loadTracks
    simp only []
    rw [if_pos hout]
  · intro row hres
    unfold loadTracks
    simp only []
    rw [if_pos (Or.inr (by rw [hres]; simp))]

/-- Witness for C10 at concrete inputs: no valid row, a negative requested
index, and an empty alternatives list, each a complete no-op. -/
theorem c10_loadTracks_noop_witness :
    loadTracks initState none none none = initState ∧
      loadTracks initState none (some 0) (some (-1)) = initState ∧
      loadTracks initState none (some 0) none = initState :=
  ⟨(c10_loadTracks_noop initState none).1 none rfl,
    (c10_loadTracks_noop initState none).2.1 0 (-1) (Or.inl (by decide)),
    (c10_loadTracks_noop initState none).2.2 0 rfl⟩

end GlobalSearchWidget
